import Mathlib

/-!
Verification of `src/talemate/client/openai_compat.py` — the
`OpenAICompatibleClient` adapter.  Python dictionaries are embedded as
association lists with Python `dict` semantics (assignment updates in place
or appends, `in` tests key presence, `pop` removes), numeric values as `ℚ`,
and the remote completion call plus the random source as explicit
parameters, so every operation of the adapter is a total Lean function.
-/

namespace Talemate

/-- Association-list embedding of a Python `dict` with `String` keys. -/
abbrev Dict (α : Type) : Type := List (String × α)

/-- `d[k]` lookup: first binding of `k`, if any. -/
def Dict.find? {α : Type} (d : Dict α) (k : String) : Option α :=
  match d with
  | [] => Option.none
  | (k', v) :: rest => if k' = k then some v else Dict.find? rest k

/-- `k in d`: key-membership test. -/
def Dict.hasKey {α : Type} (d : Dict α) (k : String) : Bool :=
  (d.find? k).isSome

/-- `d[k] = v`: updates the binding in place when the key exists, appends it
otherwise (Python dicts keep insertion order). -/
def Dict.set {α : Type} (d : Dict α) (k : String) (v : α) : Dict α :=
  match d with
  | [] => [(k, v)]
  | (k', v') :: rest =>
    if k' = k then (k', v) :: rest else (k', v') :: Dict.set rest k v

/-- `del d[k]` / the removal half of `d.pop(k)`. -/
def Dict.erase {α : Type} (d : Dict α) (k : String) : Dict α :=
  match d with
  | [] => []
  | (k', v') :: rest =>
    if k' = k then Dict.erase rest k else (k', v') :: Dict.erase rest k

/-- List of keys of the dict, in order. -/
def Dict.keys {α : Type} (d : Dict α) : List String :=
  d.map Prod.fst

/-- The sentinel marker token scanned for by `prompt_template`. -/
def botMarker : String := "<|BOT|>"

/-- The natural-language cue substituted for the marker when text follows it. -/
def botCue : String := "\nStart your response with: "

/-- Whether `pat` begins the character sequence `s`. -/
def startsWith : List Char → List Char → Bool
  | _, [] => true
  | [], _ :: _ => false
  | c :: cs, d :: ds => c = d && startsWith cs ds

/-- Worker for `splitChars`; `fuel` bounds the iteration count so the
recursion is structural (each step consumes at least one character, so
`text.length + 1` fuel always suffices). -/
def splitCharsGo (sep : List Char) : Nat → List Char → List Char → List (List Char)
  | 0, s, cur => [cur.reverse ++ s]
  | fuel + 1, s, cur =>
    match s with
    | [] => [cur.reverse]
    | c :: rest =>
      if startsWith s sep && !sep.isEmpty then
        cur.reverse :: splitCharsGo sep fuel (s.drop sep.length) []
      else
        splitCharsGo sep fuel rest (c :: cur)

/-- Python `s.split(sep)` on character lists, for a non-empty separator:
the chunks between non-overlapping occurrences of `sep`, scanned left to
right. -/
def splitChars (sep text : List Char) : List (List Char) :=
  splitCharsGo sep (text.length + 1) text []

/-- Python `s.replace(pat, rep)` for a non-empty pattern: every
non-overlapping occurrence of `pat`, scanned left to right, becomes `rep`. -/
def pyReplace (s pat rep : String) : String :=
  String.mk (List.intercalate rep.toList (splitChars pat.toList s.toList))

/-- Python `pat in s`: substring occurrence test (non-empty `pat`). -/
def pyContains (s pat : String) : Bool :=
  (splitChars pat.toList s.toList).length > 1

/-- Python `s.split(pat, 1)[1]`: everything after the first occurrence of
`pat` (meaningful only when `pat` occurs, i.e. the split has ≥ 2 parts). -/
def afterFirst (s pat : String) : String :=
  String.mk (List.intercalate pat.toList ((splitChars pat.toList s.toList).drop 1))

/-- `OpenAICompatibleClient.prompt_template`, lines 98-115.  `base` stands
for the inherited `super().prompt_template` (not part of this file);
`apiHandles` is the stored `api_handles_prompt_template` flag. -/
def prompt_template (base : String → String → String) (apiHandles : Bool)
    (system_message prompt : String) : String :=
  if !apiHandles then base system_message prompt
  else if pyContains prompt botMarker then
    if afterFirst prompt botMarker ≠ "" then pyReplace prompt botMarker botCue
    else pyReplace prompt botMarker ""
  else prompt

/-- Written from the claim's words: scan for the marker; if found, split at
its first occurrence; when non-empty text follows it, replace the marker by
the cue, otherwise remove the marker; leave the prompt unmodified when the
marker is absent. -/
def prompt_template_claimed (prompt : String) : String :=
  if pyContains prompt botMarker then
    if afterFirst prompt botMarker = "" then pyReplace prompt botMarker ""
    else pyReplace prompt botMarker botCue
  else prompt

/-! ### Configuration state, `set_client` and `reconfigure` -/

/-- A Python value as it appears in the adapter's `**kwargs` mappings and
configuration fields: a string, an integer, a boolean, or `None`. -/
inductive KVal where
  | s (v : String)
  | i (v : Int)
  | b (v : Bool)
  | none
deriving DecidableEq, Repr

/-- Python truthiness of a `KVal`: `""`, `0`, `False` and `None` are falsy. -/
def KVal.truthy : KVal → Bool
  | .s v => v ≠ ""
  | .i v => v ≠ 0
  | .b v => v
  | .none => false

/-- Python `a or b`: the first operand when truthy, the second otherwise. -/
def KVal.pyOr (a b : KVal) : KVal :=
  if a.truthy then a else b

/-- Python `int(v)` on the values `reconfigure` feeds it (it is only reached
on truthy values; a non-numeric string, on which Python would raise, is not
exercised by any claim and maps to 0 here). -/
def KVal.toInt : KVal → Int
  | .s v => (v.toInt?).getD 0
  | .i v => v
  | .b v => if v then 1 else 0
  | .none => 0

/-- A `**kwargs` mapping. -/
abbrev Kwargs : Type := Dict KVal

/-- Python `kwargs.get(k)` is `Dict.find?`; `kwargs.get(k, d)` is
`(kwargs.find? k).getD d` (a key bound to `None` yields `None`, not `d`). -/
def Kwargs.get (kw : Kwargs) (k : String) : KVal :=
  (Dict.find? kw k).getD KVal.none

/-- The `AsyncOpenAI(base_url=url, api_key=...)` handle: the adapter only
ever passes these two arguments, so the handle is their pair. -/
structure AsyncOpenAI where
  base_url : KVal
  api_key : KVal
deriving DecidableEq, Repr

/-- The mutable fields of `OpenAICompatibleClient` touched by this file:
`model_name`, `api_key`, `api_handles_prompt_template` (set in `__init__`,
lines 52-58), `api_url` and `max_token_length` (stored on the instance by
the inherited base, reassigned by `reconfigure`), and the `client` handle
(created by `set_client`). -/
structure ClientState where
  model_name : KVal
  api_key : KVal
  api_handles_prompt_template : KVal
  api_url : KVal
  max_token_length : Int
  client : AsyncOpenAI
deriving DecidableEq, Repr

/-- `OpenAICompatibleClient.can_be_coerced`, lines 64-70: Python
`not self.api_handles_prompt_template`. -/
def can_be_coerced (s : ClientState) : Bool :=
  !s.api_handles_prompt_template.truthy

/-- `OpenAICompatibleClient.set_client`, lines 72-81. -/
def set_client (s : ClientState) (kwargs : Kwargs) : ClientState :=
  let api_key := (Dict.find? kwargs "api_key").getD s.api_key
  let flag :=
    (Dict.find? kwargs "api_handles_prompt_template").getD
      s.api_handles_prompt_template
  let url := s.api_url
  let client : AsyncOpenAI := ⟨url, api_key⟩
  let model_name :=
    KVal.pyOr (kwargs.get "model") (KVal.pyOr (kwargs.get "model_name") s.model_name)
  { s with
    api_key := api_key
    api_handles_prompt_template := flag
    client := client
    model_name := model_name }

/-- `OpenAICompatibleClient.reconfigure`, lines 148-164. -/
def reconfigure (s : ClientState) (kwargs : Kwargs) : ClientState :=
  let s := if (kwargs.get "model").truthy then { s with model_name := kwargs.get "model" } else s
  let s :=
    match Dict.find? kwargs "api_url" with
    | some v => { s with api_url := v }
    | Option.none => s
  let s :=
    match Dict.find? kwargs "max_token_length" with
    | some v => { s with max_token_length := if v.truthy then v.toInt else 8192 }
    | Option.none => s
  let s :=
    match Dict.find? kwargs "api_key" with
    | some v => { s with api_key := v }
    | Option.none => s
  let s :=
    match Dict.find? kwargs "api_handles_prompt_template" with
    | some v => { s with api_handles_prompt_template := v }
    | Option.none => s
  set_client s kwargs

/-- `OpenAICompatibleClient.__init__`, lines 52-58, composed with the
inherited base constructor: the base stores `api_url` and
`max_token_length` from the configuration and calls `set_client` once, so a
fresh adapter is `set_client` applied to the constructor arguments. -/
def initClient (model api_key : KVal) (api_handles_prompt_template : KVal)
    (api_url : KVal) (max_token_length : Int) : ClientState :=
  set_client
    { model_name := model
      api_key := api_key
      api_handles_prompt_template := api_handles_prompt_template
      api_url := api_url
      max_token_length := max_token_length
      client := ⟨api_url, api_key⟩ }
    []

/-- The adapter states reachable from construction by any sequence of
`reconfigure` / `set_client` calls. -/
inductive Reachable : ClientState → Prop
  | init (model api_key flag api_url : KVal) (mtl : Int) :
      Reachable (initClient model api_key flag api_url mtl)
  | reconf (s : ClientState) (kwargs : Kwargs) :
      Reachable s → Reachable (reconfigure s kwargs)
  | setcl (s : ClientState) (kwargs : Kwargs) :
      Reachable s → Reachable (set_client s kwargs)

/-! ### `tune_prompt_parameters` -/

/-- The allow-list of lines 91-96. -/
def allowed_params : List String := ["max_tokens", "presence_penalty", "top_p", "temperature"]

/-- Modelled from the spec: `ClientBase.tune_prompt_parameters`, the shared
base tuning step delegated to on line 84, is not under `src/`; the spec
describes it only as "the shared/default tuning behavior" with no effect of
its own specified, so it is modelled as leaving the mapping unchanged. -/
def base_tune {α : Type} (parameters : Dict α) (kind : String) : Dict α :=
  let _ := kind
  parameters

/-- `OpenAICompatibleClient.tune_prompt_parameters`, lines 83-96, with the
inherited base step abstracted as `base`. -/
def tune_prompt_parameters {α : Type} (base : Dict α → String → Dict α)
    (parameters : Dict α) (kind : String) : Dict α :=
  let p := base parameters kind
  let p :=
    match Dict.find? p "repetition_penalty" with
    | some v => Dict.set (Dict.erase p "repetition_penalty") "presence_penalty" v
    | Option.none => p
  p.filter fun kv => allowed_params.contains kv.1

/-! ### `generate` -/

/-- A value in `generate`'s parameter mapping: the tuning values are
numbers, and line 128 stores the prompt string under key `"prompt"`. -/
inductive PVal where
  | str (v : String)
  | num (v : ℚ)
deriving DecidableEq, Repr

/-- One element of `response.choices`: only its `text` field is read. -/
structure Choice where
  text : String
deriving DecidableEq, Repr

/-- Outcome of the awaited `self.client.completions.create(...)` call on
line 131: a response carrying a list of choices, or one of the exception
classes distinguished by the two `except` arms. -/
inductive CallResult where
  | ok (choices : List Choice)
  | permissionDenied
  | otherError
deriving DecidableEq, Repr

/-- One `emit("status", message=..., status=...)` side effect. -/
structure StatusEmit where
  message : String
  status : String
deriving DecidableEq, Repr

/-- What a call to `generate` leaves behind: the returned string, the list
of status emissions it triggered, and the caller's parameter mapping as
mutated. -/
structure GenerateOut where
  result : String
  emits : List StatusEmit
  parameters : Dict PVal
deriving DecidableEq

/-- `OpenAICompatibleClient.generate`, lines 120-146.  The remote call's
outcome is the explicit argument `call`; `response.choices[0]` on an empty
choice list raises an `IndexError` inside the `try`, which the generic
`except Exception` arm catches. -/
def generate (prompt : String) (parameters : Dict PVal) (kind : String)
    (call : CallResult) : GenerateOut :=
  let _ := kind
  let parameters := Dict.set parameters "prompt" (PVal.str prompt)
  match call with
  | .ok choices =>
    match choices with
    | c :: _ => ⟨c.text, [], parameters⟩
    | [] => ⟨"", [⟨"Error during generation (check logs)", "error"⟩], parameters⟩
  | .permissionDenied => ⟨"", [⟨"Client API: Permission Denied", "error"⟩], parameters⟩
  | .otherError => ⟨"", [⟨"Error during generation (check logs)", "error"⟩], parameters⟩

/-! ### `jiggle_randomness` -/

/-- `OpenAICompatibleClient.jiggle_randomness`, lines 166-186.  `unif`
stands for `random.uniform`: each call site passes its computed bounds to
it and stores whatever it returns.  `Option.none` is the `KeyError` Python
raises when `prompt_config["temperature"]` (line 172) or
`prompt_config[rep_pen_key]` (line 179) misses; both lookups precede both
writes, so on `KeyError` the mapping is unmodified. -/
def jiggle_randomness (unif : ℚ → ℚ → ℚ) (prompt_config : Dict ℚ)
    (offset : ℚ := 3 / 10) : Option (Dict ℚ) :=
  match Dict.find? prompt_config "temperature" with
  | Option.none => Option.none
  | some temp =>
    let rep_pen_key :=
      if Dict.hasKey prompt_config "frequency_penalty" then "frequency_penalty"
      else "repetition_penalty"
    match Dict.find? prompt_config rep_pen_key with
    | Option.none => Option.none
    | some rep_pen =>
      let min_offset := offset * (3 / 10)
      let c1 := Dict.set prompt_config "temperature" (unif (temp + min_offset) (temp + offset))
      some (Dict.set c1 rep_pen_key
        (unif (rep_pen + min_offset * (3 / 10)) (rep_pen + offset * (3 / 10))))

/-! ### Dictionary lemmas -/

theorem Dict.find_set_self {α : Type} (d : Dict α) (k : String) (v : α) :
    Dict.find? (Dict.set d k v) k = some v := by
  induction d with
  | nil => simp [Dict.set, Dict.find?]
  | cons kv rest ih =>
    obtain ⟨k', v'⟩ := kv
    by_cases h : k' = k <;> simp [Dict.set, Dict.find?, h, ih]

theorem Dict.find_set_ne {α : Type} (d : Dict α) (k k' : String) (v : α)
    (h : k ≠ k') : Dict.find? (Dict.set d k' v) k = Dict.find? d k := by
  induction d with
  | nil => simp [Dict.set, Dict.find?, Ne.symm h]
  | cons kv rest ih =>
    obtain ⟨k₀, v₀⟩ := kv
    by_cases h0 : k₀ = k' <;> simp [Dict.set, Dict.find?, h0, ih, Ne.symm h]

theorem Dict.find_filter_true {α : Type} (d : Dict α) (pred : String × α → Bool)
    (k : String) (hk : ∀ v, pred (k, v) = true) :
    Dict.find? (d.filter pred) k = Dict.find? d k := by
  induction d with
  | nil => rfl
  | cons kv rest ih =>
    obtain ⟨k', v'⟩ := kv
    by_cases h : k' = k
    · subst h
      simp [List.filter, hk v', Dict.find?]
    · by_cases hp : pred (k', v') <;> simp [List.filter, hp, Dict.find?, h, ih]

theorem Dict.find_filter_false {α : Type} (d : Dict α) (pred : String × α → Bool)
    (k : String) (hk : ∀ v, pred (k, v) = false) :
    Dict.find? (d.filter pred) k = Option.none := by
  induction d with
  | nil => rfl
  | cons kv rest ih =>
    obtain ⟨k', v'⟩ := kv
    by_cases h : k' = k
    · subst h
      simp [List.filter, hk v', Dict.find?, ih]
    · by_cases hp : pred (k', v') <;> simp [List.filter, hp, Dict.find?, h, ih]

/-! ### Claims -/

/-- C1: with `api_handles_prompt_template = true`, `prompt_template` scans
the prompt for the sentinel `"<|BOT|>"`; if found it splits at the first
occurrence and, when non-empty text follows the marker, replaces the marker
with the cue `"\nStart your response with: "`, and when nothing follows,
removes the marker, leaving the rest of the prompt unmodified; in
particular `"Hello <|BOT|>world"` yields
`"Hello \nStart your response with: world"` and `"Hello <|BOT|>"` yields
`"Hello "`. -/
theorem claim_C1_prompt_template :
    (∀ (base : String → String → String) (sm p : String),
      prompt_template base true sm p = prompt_template_claimed p)
    ∧ prompt_template (fun _ p => p) true "" "Hello <|BOT|>world"
        = "Hello \nStart your response with: world"
    ∧ prompt_template (fun _ p => p) true "" "Hello <|BOT|>" = "Hello " := by
  refine ⟨fun base sm p => ?_, by decide, by decide⟩
  unfold prompt_template prompt_template_claimed
  simp only [Bool.not_true, Bool.false_eq_true, if_false]
  by_cases h1 : pyContains p botMarker
  · by_cases h2 : afterFirst p botMarker = "" <;> simp [h1, h2]
  · simp [h1]

/-- C4: whatever the shared base tuning step does to the mapping, after
`tune_prompt_parameters` every remaining key is one of `max_tokens`,
`presence_penalty`, `top_p`, `temperature`. -/
theorem claim_C4_tune_allowlist {α : Type} (base : Dict α → String → Dict α)
    (parameters : Dict α) (kind : String) :
    (tune_prompt_parameters base parameters kind).all
      (fun kv => allowed_params.contains kv.1) = true := by
  unfold tune_prompt_parameters
  apply List.all_eq_true.mpr
  intro kv hkv
  exact (List.mem_filter.mp hkv).2

/-- C5: if the mapping contains `repetition_penalty` on entry to
`tune_prompt_parameters` (with the base step modelled from the spec),
afterwards it contains `presence_penalty` bound to that same value and no
longer contains `repetition_penalty`. -/
theorem claim_C5_tune_renames (parameters : Dict ℚ) (kind : String) (v : ℚ)
    (h : Dict.find? parameters "repetition_penalty" = some v) :
    Dict.find? (tune_prompt_parameters base_tune parameters kind) "presence_penalty" = some v
    ∧ Dict.find? (tune_prompt_parameters base_tune parameters kind) "repetition_penalty"
        = Option.none := by
  unfold tune_prompt_parameters base_tune
  simp only [h]
  constructor
  · rw [Dict.find_filter_true]
    · exact Dict.find_set_self _ _ _
    · intro w
      simp [allowed_params]
  · rw [Dict.find_filter_false]
    intro w
    simp [allowed_params]

/-- Witness for C5 at the concrete mapping `{"repetition_penalty": 1}`. -/
theorem claim_C5_tune_renames_witness :
    Dict.find? [("repetition_penalty", (1 : ℚ))] "repetition_penalty" = some 1
    ∧ Dict.find? (tune_prompt_parameters base_tune [("repetition_penalty", (1 : ℚ))] "kind")
        "presence_penalty" = some 1
    ∧ Dict.find? (tune_prompt_parameters base_tune [("repetition_penalty", (1 : ℚ))] "kind")
        "repetition_penalty" = Option.none := by
  refine ⟨by decide, ?_, ?_⟩
  · exact (claim_C5_tune_renames [("repetition_penalty", (1 : ℚ))] "kind" 1 (by decide)).1
  · exact (claim_C5_tune_renames [("repetition_penalty", (1 : ℚ))] "kind" 1 (by decide)).2

/-- The configuration keys `reconfigure` itself recognizes (lines 148-160). -/
def recognized_keys : List String :=
  ["model", "api_url", "max_token_length", "api_key", "api_handles_prompt_template"]

/-- A concrete adapter state used by the counterexamples and witnesses. -/
def demoState : ClientState :=
  initClient (KVal.s "model-a") (KVal.s "key") (KVal.b false)
    (KVal.s "http://localhost:5000") 8192

/-- C2 counterexample: `"model_name"` is not one of the recognized keys, yet
passing it to `reconfigure` changes the stored model name (through
`set_client`, line 79-81), so unrecognized keys are not all ignored. -/
theorem claim_C2_counterexample :
    ¬ "model_name" ∈ recognized_keys
    ∧ (reconfigure demoState [("model_name", KVal.s "model-b")]).model_name
        ≠ (reconfigure demoState []).model_name := by
  decide

/-- C2 as amended: each recognized key present in the input overwrites the
corresponding stored field with the given value, except that `model` is
applied only when its value is truthy and a falsy `max_token_length` stores
the default 8192 instead of the given value; the key `model_name`, though
unrecognized by `reconfigure`, is honoured by `set_client` as a fallback
for the model name when no truthy `model` is given; all other unrecognized
keys are ignored; and afterwards the `client` handle is a fresh one bound
to the possibly updated URL and key. -/
theorem claim_C2_reconfigure (s : ClientState) (kwargs : Kwargs) :
    (reconfigure s kwargs).api_url = (Dict.find? kwargs "api_url").getD s.api_url
    ∧ (reconfigure s kwargs).api_key = (Dict.find? kwargs "api_key").getD s.api_key
    ∧ (reconfigure s kwargs).api_handles_prompt_template
        = (Dict.find? kwargs "api_handles_prompt_template").getD
            s.api_handles_prompt_template
    ∧ (reconfigure s kwargs).max_token_length
        = (match Dict.find? kwargs "max_token_length" with
           | some v => if v.truthy then v.toInt else 8192
           | Option.none => s.max_token_length)
    ∧ (reconfigure s kwargs).model_name
        = KVal.pyOr (kwargs.get "model")
            (KVal.pyOr (kwargs.get "model_name") s.model_name)
    ∧ (reconfigure s kwargs).client
        = ⟨(reconfigure s kwargs).api_url, (reconfigure s kwargs).api_key⟩ := by
  unfold reconfigure set_client Kwargs.get
  rcases h1 : Dict.find? kwargs "api_url" with _ | v1 <;>
  rcases h2 : Dict.find? kwargs "max_token_length" with _ | v2 <;>
  rcases h3 : Dict.find? kwargs "api_key" with _ | v3 <;>
  rcases h4 : Dict.find? kwargs "api_handles_prompt_template" with _ | v4 <;>
  by_cases hm : ((Dict.find? kwargs "model").getD KVal.none).truthy <;>
  simp [h1, h2, h3, h4, hm, KVal.pyOr]

/-- C7: in every reachable adapter state — after construction and any
sequence of `reconfigure` / `set_client` calls — `can_be_coerced` is the
logical negation (Python `not`, i.e. negated truthiness) of the stored
`api_handles_prompt_template` flag. -/
theorem claim_C7_can_be_coerced (s : ClientState) (hs : Reachable s) :
    can_be_coerced s = !s.api_handles_prompt_template.truthy := by
  cases hs <;> rfl

/-- Witness for C7 at a concrete freshly constructed state. -/
theorem claim_C7_can_be_coerced_witness :
    Reachable demoState
    ∧ can_be_coerced demoState = !demoState.api_handles_prompt_template.truthy :=
  ⟨Reachable.init _ _ _ _ _, claim_C7_can_be_coerced _ (Reachable.init _ _ _ _ _)⟩

/-- C3: `generate` converts every failure of the remote call into the
empty-string sentinel plus exactly one error-severity status emission —
with the fixed message `"Client API: Permission Denied"` for
permission-denied and the generic message otherwise — and a non-sentinel
result is returned only on a successful call (with no emission). -/
theorem claim_C3_generate_failures (prompt : String) (parameters : Dict PVal)
    (kind : String) (call : CallResult) :
    ((generate prompt parameters kind call).result ≠ "" →
      ∃ c cs, call = CallResult.ok (c :: cs)
        ∧ (generate prompt parameters kind call).emits = [])
    ∧ (call = CallResult.permissionDenied →
        (generate prompt parameters kind call).result = ""
        ∧ (generate prompt parameters kind call).emits
            = [⟨"Client API: Permission Denied", "error"⟩])
    ∧ (call = CallResult.otherError →
        (generate prompt parameters kind call).result = ""
        ∧ (generate prompt parameters kind call).emits
            = [⟨"Error during generation (check logs)", "error"⟩]) := by
  cases call with
  | ok choices =>
    cases choices with
    | nil => refine ⟨fun h => absurd rfl h, fun h => ?_, fun h => ?_⟩ <;> cases h
    | cons c cs =>
      refine ⟨fun _ => ⟨c, cs, rfl, rfl⟩, fun h => ?_, fun h => ?_⟩ <;> cases h
  | permissionDenied =>
    refine ⟨fun h => absurd rfl h, fun _ => ⟨rfl, rfl⟩, fun h => ?_⟩
    cases h
  | otherError =>
    refine ⟨fun h => absurd rfl h, fun h => ?_, fun _ => ⟨rfl, rfl⟩⟩
    cases h

/-- Witness for C3 at concrete calls: both failure kinds, and one success. -/
theorem claim_C3_generate_failures_witness :
    (generate "p" [] "k" CallResult.permissionDenied).result = ""
    ∧ (generate "p" [] "k" CallResult.permissionDenied).emits
        = [⟨"Client API: Permission Denied", "error"⟩]
    ∧ (generate "p" [] "k" CallResult.otherError).result = ""
    ∧ (generate "p" [] "k" CallResult.otherError).emits
        = [⟨"Error during generation (check logs)", "error"⟩]
    ∧ ∃ c cs, CallResult.ok [Choice.mk "hi"] = CallResult.ok (c :: cs)
        ∧ (generate "p" [] "k" (CallResult.ok [Choice.mk "hi"])).emits = [] := by
  refine ⟨?_, ?_, ?_, ?_, ?_⟩
  · exact ((claim_C3_generate_failures "p" [] "k" CallResult.permissionDenied).2.1 rfl).1
  · exact ((claim_C3_generate_failures "p" [] "k" CallResult.permissionDenied).2.1 rfl).2
  · exact ((claim_C3_generate_failures "p" [] "k" CallResult.otherError).2.2 rfl).1
  · exact ((claim_C3_generate_failures "p" [] "k" CallResult.otherError).2.2 rfl).2
  · exact (claim_C3_generate_failures "p" [] "k" (CallResult.ok [Choice.mk "hi"])).1
      (by decide)

/-- C8: when the remote completion call succeeds with a first choice, the
returned string is exactly that choice's `text` field, unmodified. -/
theorem claim_C8_generate_success (prompt : String) (parameters : Dict PVal)
    (kind : String) (c : Choice) (rest : List Choice) :
    (generate prompt parameters kind (CallResult.ok (c :: rest))).result = c.text := rfl

/-- C9: on every path — success and every failure alike — `generate` leaves
the caller's parameter mapping with the key `"prompt"` bound to the
untrimmed input prompt; the mutation of line 128 is never rolled back. -/
theorem claim_C9_generate_mutates_parameters (prompt : String)
    (parameters : Dict PVal) (kind : String) (call : CallResult) :
    Dict.find? (generate prompt parameters kind call).parameters "prompt"
      = some (PVal.str prompt) := by
  cases call with
  | ok choices => cases choices <;> exact Dict.find_set_self _ _ _
  | permissionDenied => exact Dict.find_set_self _ _ _
  | otherError => exact Dict.find_set_self _ _ _

/-- C10: `jiggle_randomness` hits a `KeyError` exactly when the mapping
lacks `temperature`, or lacks both `frequency_penalty` and
`repetition_penalty`; it succeeds under every other configuration, for any
offset and any realization of the random draws. -/
theorem claim_C10_jiggle_partial (unif : ℚ → ℚ → ℚ) (cfg : Dict ℚ) (offset : ℚ) :
    jiggle_randomness unif cfg offset = Option.none
      ↔ (Dict.find? cfg "temperature" = Option.none
          ∨ (Dict.find? cfg "frequency_penalty" = Option.none
             ∧ Dict.find? cfg "repetition_penalty" = Option.none)) := by
  unfold jiggle_randomness Dict.hasKey
  rcases ht : Dict.find? cfg "temperature" with _ | t <;>
  rcases hf : Dict.find? cfg "frequency_penalty" with _ | f <;>
  rcases hr : Dict.find? cfg "repetition_penalty" with _ | r <;>
  simp [ht, hf, hr]

/-- C6: for every realization of the uniform draws (`unif a b` lands in
`[a, b]` whenever `a ≤ b`), `jiggle_randomness` on
`{temperature: 0.7, frequency_penalty: 0.2}` with `offset = 0.3` leaves
`temperature` in `[0.79, 1.0]` — drawn from
`[temperature + min_offset, temperature + offset]` with
`min_offset = offset * 0.3 = 0.09` — and `frequency_penalty` in
`[0.218, 0.29]` — drawn from
`[value + min_offset * 0.3, value + offset * 0.3] = [0.227, 0.29]`. -/
theorem claim_C6_jiggle_bounds (unif : ℚ → ℚ → ℚ)
    (hu : ∀ a b : ℚ, a ≤ b → a ≤ unif a b ∧ unif a b ≤ b) :
    ∃ cfg,
      jiggle_randomness unif
          [("temperature", 7 / 10), ("frequency_penalty", 2 / 10)] (3 / 10)
        = some cfg
      ∧ (∃ t, Dict.find? cfg "temperature" = some t ∧ 79 / 100 ≤ t ∧ t ≤ 1)
      ∧ (∃ f, Dict.find? cfg "frequency_penalty" = some f
          ∧ 218 / 1000 ≤ f ∧ f ≤ 29 / 100) := by
  have hcalc :
      jiggle_randomness unif
          [("temperature", 7 / 10), ("frequency_penalty", 2 / 10)] (3 / 10)
        = some [("temperature", unif (7 / 10 + 3 / 10 * (3 / 10)) (7 / 10 + 3 / 10)),
                ("frequency_penalty",
                  unif (2 / 10 + 3 / 10 * (3 / 10) * (3 / 10)) (2 / 10 + 3 / 10 * (3 / 10)))] :=
    rfl
  obtain ⟨h1, h2⟩ := hu (7 / 10 + 3 / 10 * (3 / 10)) (7 / 10 + 3 / 10) (by norm_num)
  obtain ⟨h3, h4⟩ := hu (2 / 10 + 3 / 10 * (3 / 10) * (3 / 10)) (2 / 10 + 3 / 10 * (3 / 10))
    (by norm_num)
  refine ⟨_, hcalc, ⟨_, rfl, ?_, ?_⟩, ⟨_, rfl, ?_, ?_⟩⟩
  · linarith
  · linarith
  · linarith
  · linarith

/-- Witness for C6 with the draw that always returns the lower bound. -/
theorem claim_C6_jiggle_bounds_witness :
    (∀ a b : ℚ, a ≤ b → a ≤ (fun x _ => x) a b ∧ (fun x _ => x) a b ≤ b)
    ∧ ∃ cfg,
        jiggle_randomness (fun x _ => x)
            [("temperature", 7 / 10), ("frequency_penalty", 2 / 10)] (3 / 10)
          = some cfg
        ∧ (∃ t, Dict.find? cfg "temperature" = some t ∧ 79 / 100 ≤ t ∧ t ≤ 1)
        ∧ (∃ f, Dict.find? cfg "frequency_penalty" = some f
            ∧ 218 / 1000 ≤ f ∧ f ≤ 29 / 100) :=
  ⟨fun a _ h => ⟨le_refl a, h⟩,
    claim_C6_jiggle_bounds (fun x _ => x) (fun a _ h => ⟨le_refl a, h⟩)⟩

end Talemate
